import Mathlib

/-!
Verification of the scout bridge contracts: the C call surface declared in
`src-tauri/src/macos/foundation_models_bridge.h` (synchronous on-device text
transforms with explicit buffer ownership) and
`src-tauri/src/macos/native_overlay/overlay_bridge.h` (the native overlay
controller: state machine, visibility, volume, gesture callbacks).

The repository snapshot contains the two headers only; the native (Swift /
Objective-C) implementations behind them are not part of the snapshot, so the
behavioural definitions below are modelled from the design document, while the
interface-shape definitions (`CFunDecl` values) are transcribed from the
headers themselves.
-/

namespace Scout

/-! ## The C interface, as declared in the headers -/

/-- The C parameter and return types occurring in the two bridge headers. -/
inductive CType where
  | cvoid
  | cbool
  | cint
  | cfloat
  | constCharPtr
  | funPtrVoidVoid
  deriving DecidableEq, Repr

/-- An abstract C value passed across the bridge boundary.  A pointer is
`none` (null) or an allocation identity; a function pointer is an opaque
handler identity. -/
inductive CVal where
  | vunit
  | vbool (b : Bool)
  | vint (v : Int)
  | vfloat (q : Rat)
  | vptr (p : Option Nat)
  | vfun (id : Nat)
  deriving DecidableEq, Repr

/-- Which abstract values a C parameter type accepts.  A plain `int`
parameter accepts every 32-bit two's-complement integer; the declaration
carries no further constraint. -/
def CType.accepts : CType → CVal → Prop
  | .cvoid, .vunit => True
  | .cbool, .vbool _ => True
  | .cint, .vint v => -(2 ^ 31) ≤ v ∧ v < 2 ^ 31
  | .cfloat, .vfloat _ => True
  | .constCharPtr, .vptr _ => True
  | .funPtrVoidVoid, .vfun _ => True
  | _, _ => False

/-- A C function declaration: name, parameter types and return type, exactly
as written in the header. -/
structure CFunDecl where
  name : String
  params : List CType
  ret : CType
  deriving DecidableEq, Repr

/-- An argument list the declared parameter types accept: same length,
pointwise acceptance. -/
def declAccepts (d : CFunDecl) (args : List CVal) : Prop :=
  List.Forall₂ CType.accepts d.params args

/-- `bool check_foundation_models_availability(void)` from
`foundation_models_bridge.h`. -/
def check_foundation_models_availability_decl : CFunDecl :=
  { name := "check_foundation_models_availability", params := [], ret := .cbool }

/-- `const char* enhance_text_sync(const char* text)` from
`foundation_models_bridge.h`. -/
def enhance_text_sync_decl : CFunDecl :=
  { name := "enhance_text_sync", params := [.constCharPtr], ret := .constCharPtr }

/-- `const char* clean_speech_sync(const char* text)` from
`foundation_models_bridge.h`. -/
def clean_speech_sync_decl : CFunDecl :=
  { name := "clean_speech_sync", params := [.constCharPtr], ret := .constCharPtr }

/-- `const char* summarize_text_sync(const char* text, int max_sentences)`
from `foundation_models_bridge.h`. -/
def summarize_text_sync_decl : CFunDecl :=
  { name := "summarize_text_sync", params := [.constCharPtr, .cint],
    ret := .constCharPtr }

/-- `void free_foundation_models_string(const char* ptr)` from
`foundation_models_bridge.h`. -/
def free_foundation_models_string_decl : CFunDecl :=
  { name := "free_foundation_models_string", params := [.constCharPtr],
    ret := .cvoid }

/-! ## Text-Transform Service (behaviour) -/

/-- Modelled from the spec: the underlying on-device language-model service
behind `foundation_models_bridge.h`, whose native implementation is not in
the repository snapshot.  `modelPresent`, `hardwareCapable` and
`osSufficient` are the capability facts the availability probe snapshots;
the three transform oracles yield the model's output for an input, or `none`
when the model produces no output. -/
structure ModelService where
  modelPresent : Bool
  hardwareCapable : Bool
  osSufficient : Bool
  enhanceModel : String → Option String
  cleanModel : String → Option String
  summarizeModel : String → Int → Option String

/-- Whether the model service can currently serve requests: model present,
hardware capable, OS version sufficient. -/
def fmAvailable (svc : ModelService) : Bool :=
  svc.modelPresent && svc.hardwareCapable && svc.osSufficient

/-- Modelled from the spec: `check_foundation_models_availability` returns a
point-in-time boolean snapshot of service availability and has no side
effects; the pair makes the (unchanged) service state explicit. -/
def check_foundation_models_availability (svc : ModelService) :
    ModelService × Bool :=
  (svc, fmAvailable svc)

/-- Modelled from the spec: the bridge's allocation state.  `live` records
the identities of buffers the bridge has returned and the caller has not yet
released; `next` is the next fresh identity. -/
structure BridgeHeap where
  live : List Nat
  next : Nat
  deriving DecidableEq, Repr

/-- Every live buffer identity was previously issued. -/
def BridgeHeap.WF (h : BridgeHeap) : Prop :=
  ∀ p ∈ h.live, p < h.next

/-- Allocate a fresh owned buffer, returning the new heap and the buffer's
identity. -/
def allocBuffer (h : BridgeHeap) : BridgeHeap × Nat :=
  ({ live := h.next :: h.live, next := h.next + 1 }, h.next)

/-- Modelled from the spec: `enhance_text_sync`.  A synchronous call that,
when the service is available and the model produces output, allocates a
fresh owned buffer holding that output and transfers it to the caller;
otherwise it returns the single failure signal `none`.  Failure is binary:
no structured error code accompanies `none`, and the call is a total
function — it never throws across the boundary. -/
def enhance_text_sync (svc : ModelService) (h : BridgeHeap) (text : String) :
    BridgeHeap × Option (Nat × String) :=
  if fmAvailable svc then
    match svc.enhanceModel text with
    | some out => ((allocBuffer h).1, some ((allocBuffer h).2, out))
    | none => (h, none)
  else (h, none)

/-- Modelled from the spec: `clean_speech_sync`, with the same call and
ownership protocol as `enhance_text_sync` but driven by the
speech-disfluency oracle. -/
def clean_speech_sync (svc : ModelService) (h : BridgeHeap) (text : String) :
    BridgeHeap × Option (Nat × String) :=
  if fmAvailable svc then
    match svc.cleanModel text with
    | some out => ((allocBuffer h).1, some ((allocBuffer h).2, out))
    | none => (h, none)
  else (h, none)

/-- Modelled from the spec: `summarize_text_sync`.  `max_sentences` is handed
to the model as a soft target; the bridge returns whatever output the model
produces, verbatim and untruncated, in a fresh owned buffer, or the failure
signal `none`. -/
def summarize_text_sync (svc : ModelService) (h : BridgeHeap)
    (text : String) (max_sentences : Int) : BridgeHeap × Option (Nat × String) :=
  if fmAvailable svc then
    match svc.summarizeModel text max_sentences with
    | some out => ((allocBuffer h).1, some ((allocBuffer h).2, out))
    | none => (h, none)
  else (h, none)

/-- Outcome of a release call: a defined transition of the allocation state,
or undefined behaviour (a contract violation by the caller). -/
inductive FreeResult where
  | ok (h : BridgeHeap)
  | undefined
  deriving DecidableEq, Repr

/-- Modelled from the spec: `free_foundation_models_string`.  Releasing a
live bridge-allocated buffer removes it from the allocation state; releasing
any other pointer — one not obtained from the three transform calls, or one
already released — is undefined behaviour by contract. -/
def free_foundation_models_string (h : BridgeHeap) (p : Nat) : FreeResult :=
  if p ∈ h.live then .ok { h with live := h.live.erase p } else .undefined

/-- Number of sentence terminators in a string, used to talk about how many
sentences' worth of content an output carries. -/
def sentenceCount (s : String) : Nat :=
  (s.toList.filter (fun ch => ch == '.' || ch == '!' || ch == '?')).length

/-! ## Overlay Controller (behaviour) -/

/-- The three logical overlay states. -/
inductive OverlayState where
  | Idle
  | Recording
  | Processing
  deriving DecidableEq, Repr

/-- The three gesture kinds the overlay recognizes. -/
inductive GestureKind where
  | start
  | stop
  | cancel
  deriving DecidableEq, Repr

/-- Modelled from the spec: the process-wide overlay controller behind
`overlay_bridge.h`, whose native implementation is not in the repository
snapshot.  It holds exactly one logical state, a visibility flag independent
of that state, a display-only volume level, and at most one registered
handler (an opaque identity) per gesture kind. -/
structure OverlayController where
  state : OverlayState
  visible : Bool
  volume : Rat
  startCb : Option Nat
  stopCb : Option Nat
  cancelCb : Option Nat
  deriving DecidableEq, Repr

/-- The controller's initial configuration: `Idle`, hidden, silent, no
handlers registered. -/
def initialOverlay : OverlayController :=
  { state := .Idle, visible := false, volume := 0,
    startCb := none, stopCb := none, cancelCb := none }

/-- Modelled from the spec: `native_overlay_show` makes the window visible
and touches nothing else. -/
def native_overlay_show (c : OverlayController) : OverlayController :=
  { c with visible := true }

/-- Modelled from the spec: `native_overlay_hide` makes the window invisible
and touches nothing else; in particular the logical state is kept. -/
def native_overlay_hide (c : OverlayController) : OverlayController :=
  { c with visible := false }

/-- Modelled from the spec: `native_overlay_set_recording_state`.  `true`
transitions to `Recording` from any state and is never rejected.  The spec
specifies no transition for `false`; it is modelled as leaving the state
unchanged. -/
def native_overlay_set_recording_state (c : OverlayController)
    (recording : Bool) : OverlayController :=
  if recording then { c with state := .Recording } else c

/-- Modelled from the spec: `native_overlay_set_processing_state`.  `true`
transitions to `Processing` from any state and is never rejected.  The spec
specifies no transition for `false`; it is modelled as leaving the state
unchanged. -/
def native_overlay_set_processing_state (c : OverlayController)
    (processing : Bool) : OverlayController :=
  if processing then { c with state := .Processing } else c

/-- Modelled from the spec: `native_overlay_set_idle_state` transitions to
`Idle` from any state and is never rejected. -/
def native_overlay_set_idle_state (c : OverlayController) : OverlayController :=
  { c with state := .Idle }

/-- Clamp an out-of-range volume into the display range 0–1 instead of
rejecting it. -/
def clampVolume (level : Rat) : Rat :=
  max 0 (min 1 level)

/-- Modelled from the spec: `native_overlay_set_volume_level` updates the
display-only volume (clamped) and has no effect on the state machine. -/
def native_overlay_set_volume_level (c : OverlayController) (level : Rat) :
    OverlayController :=
  { c with volume := clampVolume level }

/-- Modelled from the spec: `native_overlay_set_start_recording_callback`
stores the handler in the single `start` slot, replacing any previous
registration. -/
def native_overlay_set_start_recording_callback (c : OverlayController)
    (cb : Nat) : OverlayController :=
  { c with startCb := some cb }

/-- Modelled from the spec: `native_overlay_set_stop_recording_callback`
stores the handler in the single `stop` slot, replacing any previous
registration. -/
def native_overlay_set_stop_recording_callback (c : OverlayController)
    (cb : Nat) : OverlayController :=
  { c with stopCb := some cb }

/-- Modelled from the spec: `native_overlay_set_cancel_recording_callback`
stores the handler in the single `cancel` slot, replacing any previous
registration. -/
def native_overlay_set_cancel_recording_callback (c : OverlayController)
    (cb : Nat) : OverlayController :=
  { c with cancelCb := some cb }

/-- The registered handler for a gesture kind, if any. -/
def handlerFor (c : OverlayController) : GestureKind → Option Nat
  | .start => c.startCb
  | .stop => c.stopCb
  | .cancel => c.cancelCb

/-- Modelled from the spec: a recognized user gesture inside the overlay
invokes the registered handler of its kind, if any; the controller never
self-transitions, so the controller component of the result is unchanged,
and a gesture with no registered handler is silently dropped (result
handler `none`, no error). -/
def fireGesture (c : OverlayController) (k : GestureKind) :
    OverlayController × Option Nat :=
  (c, handlerFor c k)

/-- An embedder command on the overlay controller, as enumerated by
`overlay_bridge.h`. -/
inductive OverlayCommand where
  | show
  | hide
  | setRecording (b : Bool)
  | setProcessing (b : Bool)
  | setIdle
  | setVolume (level : Rat)
  | registerStart (cb : Nat)
  | registerStop (cb : Nat)
  | registerCancel (cb : Nat)
  deriving DecidableEq

/-- Modelled from the spec: one embedder command applied to the controller,
paired with the handlers it causes to be invoked.  Embedder commands invoke
no handlers (only gestures do), so the second component is always empty. -/
def applyCommand (c : OverlayController) : OverlayCommand → OverlayController × List Nat
  | .show => (native_overlay_show c, [])
  | .hide => (native_overlay_hide c, [])
  | .setRecording b => (native_overlay_set_recording_state c b, [])
  | .setProcessing b => (native_overlay_set_processing_state c b, [])
  | .setIdle => (native_overlay_set_idle_state c, [])
  | .setVolume level => (native_overlay_set_volume_level c level, [])
  | .registerStart cb => (native_overlay_set_start_recording_callback c cb, [])
  | .registerStop cb => (native_overlay_set_stop_recording_callback c cb, [])
  | .registerCancel cb => (native_overlay_set_cancel_recording_callback c cb, [])

/-- Whether a given logical state is the active one in a controller
configuration. -/
def isActive (c : OverlayController) (s : OverlayState) : Bool :=
  c.state == s

/-! ## Concrete sample configurations, used to exercise the contracts -/

/-- A fully available model service whose enhance oracle produces output. -/
def svcW : ModelService :=
  { modelPresent := true, hardwareCapable := true, osSufficient := true,
    enhanceModel := fun _ => some "ok", cleanModel := fun _ => none,
    summarizeModel := fun _ _ => none }

/-- An available service whose summarize oracle returns four sentences
regardless of the requested target. -/
def svcMany : ModelService :=
  { modelPresent := true, hardwareCapable := true, osSufficient := true,
    enhanceModel := fun _ => none, cleanModel := fun _ => none,
    summarizeModel := fun _ _ => some "A. B. C. D." }

/-- An available service whose summarize oracle returns a single sentence
regardless of the requested target. -/
def svcFew : ModelService :=
  { modelPresent := true, hardwareCapable := true, osSufficient := true,
    enhanceModel := fun _ => none, cleanModel := fun _ => none,
    summarizeModel := fun _ _ => some "A." }

/-- A service whose model is absent: the availability probe must answer
`false` rather than fail. -/
def svcAbsent : ModelService :=
  { modelPresent := false, hardwareCapable := true, osSufficient := true,
    enhanceModel := fun _ => none, cleanModel := fun _ => none,
    summarizeModel := fun _ _ => none }

/-- A controller currently shown and in the `Recording` state. -/
def recC : OverlayController :=
  { state := .Recording, visible := true, volume := 0,
    startCb := none, stopCb := none, cancelCb := none }

/-! ## Helper lemmas -/

/-- Each controller configuration has exactly one active logical state. -/
lemma exists_unique_active (c : OverlayController) :
    ∃! s, isActive c s = true := by
  refine ⟨c.state, by simp [isActive], ?_⟩
  intro y hy
  simp [isActive] at hy
  exact hy.symm

/-- Releasing the buffer just allocated from a well-formed heap succeeds and
removes it from the live set; releasing it a second time is undefined. -/
lemma free_after_alloc (h : BridgeHeap) (hWF : h.WF) :
    free_foundation_models_string (allocBuffer h).1 (allocBuffer h).2 =
      .ok { live := h.live, next := h.next + 1 } ∧
    (allocBuffer h).2 ∉ ({ live := h.live, next := h.next + 1 } : BridgeHeap).live ∧
    free_foundation_models_string
      { live := h.live, next := h.next + 1 } (allocBuffer h).2 = .undefined := by
  have hfresh : h.next ∉ h.live := fun hmem => lt_irrefl _ (hWF _ hmem)
  refine ⟨?_, hfresh, ?_⟩
  · simp [allocBuffer, free_foundation_models_string, List.erase_cons_head]
  · simp [allocBuffer, free_foundation_models_string, hfresh]

/-! ## Claim theorems -/

/-- C1: for every input, each of the three transform calls returns either a
newly owned buffer transferred to the caller or the single failure signal
(`none`), and the declared return type is a plain `const char*` — no
structured error code exists; each call is a total Lean function, so no call
throws or raises across the boundary. -/
theorem c1_transforms_return_buffer_or_failure
    (svc : ModelService) (h : BridgeHeap) (text : String) (n : Int) :
    ((enhance_text_sync svc h text).2 = none ∨
      ∃ b, (enhance_text_sync svc h text).2 = some b) ∧
    ((clean_speech_sync svc h text).2 = none ∨
      ∃ b, (clean_speech_sync svc h text).2 = some b) ∧
    ((summarize_text_sync svc h text n).2 = none ∨
      ∃ b, (summarize_text_sync svc h text n).2 = some b) ∧
    enhance_text_sync_decl.ret = CType.constCharPtr ∧
    clean_speech_sync_decl.ret = CType.constCharPtr ∧
    summarize_text_sync_decl.ret = CType.constCharPtr :=
  ⟨(enhance_text_sync svc h text).2.eq_none_or_eq_some,
    (clean_speech_sync svc h text).2.eq_none_or_eq_some,
    (summarize_text_sync svc h text n).2.eq_none_or_eq_some,
    rfl, rfl, rfl⟩

/-- C2: from every prior controller configuration,
`native_overlay_set_recording_state true` yields state `Recording`,
`native_overlay_set_processing_state true` yields `Processing` and
`native_overlay_set_idle_state` yields `Idle`; the setters are total, so no
state-setting command is ever rejected. -/
theorem c2_state_setters_reach_target (c : OverlayController) :
    (native_overlay_set_recording_state c true).state = OverlayState.Recording ∧
    (native_overlay_set_processing_state c true).state = OverlayState.Processing ∧
    (native_overlay_set_idle_state c).state = OverlayState.Idle :=
  ⟨rfl, rfl, rfl⟩

/-- C3: the overlay controller is initially `Idle`, at every point exactly
one of the three logical states is active, and every overlay command (show,
hide, the three state setters, set-volume, callback registration) preserves
this exactly-one-state invariant, as does gesture firing. -/
theorem c3_exactly_one_active_state :
    initialOverlay.state = OverlayState.Idle ∧
    (∃! s, isActive initialOverlay s = true) ∧
    (∀ (c : OverlayController) (cmd : OverlayCommand),
      ∃! s, isActive (applyCommand c cmd).1 s = true) ∧
    (∀ (c : OverlayController) (k : GestureKind),
      ∃! s, isActive (fireGesture c k).1 s = true) :=
  ⟨rfl, exists_unique_active initialOverlay,
    fun c cmd => exists_unique_active (applyCommand c cmd).1,
    fun c k => exists_unique_active (fireGesture c k).1⟩

/-- C4: a buffer successfully returned by any of the three transform calls
can be released exactly once through `free_foundation_models_string`: the
release succeeds, after it the buffer is no longer live (usable), a second
release of the same buffer is undefined behaviour, and releasing any pointer
that is not a live bridge-issued buffer is undefined behaviour. -/
theorem c4_release_exactly_once
    (svc : ModelService) (h : BridgeHeap) (text : String) (n : Int)
    (h' : BridgeHeap) (p : Nat) (out : String)
    (hWF : h.WF)
    (hcall : enhance_text_sync svc h text = (h', some (p, out)) ∨
      clean_speech_sync svc h text = (h', some (p, out)) ∨
      summarize_text_sync svc h text n = (h', some (p, out))) :
    ∃ h'', free_foundation_models_string h' p = .ok h'' ∧
      p ∉ h''.live ∧
      free_foundation_models_string h'' p = .undefined ∧
      ∀ q, q ∉ h'.live → free_foundation_models_string h' q = .undefined := by
  have key : h' = (allocBuffer h).1 ∧ p = (allocBuffer h).2 := by
    rcases hcall with hc | hc | hc
    · by_cases ha : fmAvailable svc
      · rcases hm : svc.enhanceModel text with _ | o
        · simp [enhance_text_sync, ha, hm] at hc
        · simp [enhance_text_sync, ha, hm] at hc
          exact ⟨hc.1.symm, hc.2.1.symm⟩
      · simp [enhance_text_sync, ha] at hc
    · by_cases ha : fmAvailable svc
      · rcases hm : svc.cleanModel text with _ | o
        · simp [clean_speech_sync, ha, hm] at hc
        · simp [clean_speech_sync, ha, hm] at hc
          exact ⟨hc.1.symm, hc.2.1.symm⟩
      · simp [clean_speech_sync, ha] at hc
    · by_cases ha : fmAvailable svc
      · rcases hm : svc.summarizeModel text n with _ | o
        · simp [summarize_text_sync, ha, hm] at hc
        · simp [summarize_text_sync, ha, hm] at hc
          exact ⟨hc.1.symm, hc.2.1.symm⟩
      · simp [summarize_text_sync, ha] at hc
  obtain ⟨hh, hp⟩ := key
  subst hh
  subst hp
  obtain ⟨hok, hgone, hdouble⟩ := free_after_alloc h hWF
  refine ⟨_, hok, hgone, hdouble, ?_⟩
  intro q hq
  simp [free_foundation_models_string, hq]

/-- Witness for C4: a concrete successful `enhance_text_sync` call on an
empty well-formed heap, whose returned buffer is released once. -/
theorem c4_release_exactly_once_witness :
    BridgeHeap.WF ⟨[], 0⟩ ∧
    enhance_text_sync svcW ⟨[], 0⟩ "hi" = (⟨[0], 1⟩, some (0, "ok")) ∧
    ∃ h'', free_foundation_models_string ⟨[0], 1⟩ 0 = .ok h'' ∧
      0 ∉ h''.live ∧
      free_foundation_models_string h'' 0 = .undefined ∧
      ∀ q, q ∉ (⟨[0], 1⟩ : BridgeHeap).live →
        free_foundation_models_string ⟨[0], 1⟩ q = .undefined := by
  have hwf : BridgeHeap.WF ⟨[], 0⟩ := by simp [BridgeHeap.WF]
  have hc : enhance_text_sync svcW ⟨[], 0⟩ "hi" = (⟨[0], 1⟩, some (0, "ok")) := rfl
  exact ⟨hwf, hc,
    c4_release_exactly_once svcW ⟨[], 0⟩ "hi" 0 ⟨[0], 1⟩ 0 "ok" hwf (Or.inl hc)⟩

/-- C5: issuing the state-setting command whose target state is already the
current one is a no-op — the controller is unchanged and no handler is
invoked — and issuing `native_overlay_set_recording_state true` twice in a
row leaves the controller exactly as a single call does. -/
theorem c5_state_setters_idempotent (c : OverlayController) :
    (c.state = OverlayState.Recording →
      applyCommand c (.setRecording true) = (c, [])) ∧
    (c.state = OverlayState.Processing →
      applyCommand c (.setProcessing true) = (c, [])) ∧
    (c.state = OverlayState.Idle → applyCommand c .setIdle = (c, [])) ∧
    native_overlay_set_recording_state
        (native_overlay_set_recording_state c true) true =
      native_overlay_set_recording_state c true := by
  obtain ⟨st, vis, vol, s1, s2, s3⟩ := c
  refine ⟨?_, ?_, ?_, rfl⟩ <;> · rintro rfl; rfl

/-- Witness for C5: re-issuing `setRecording true` on a controller already
in `Recording` changes nothing and fires nothing. -/
theorem c5_state_setters_idempotent_witness :
    recC.state = OverlayState.Recording ∧
    applyCommand recC (.setRecording true) = (recC, []) :=
  ⟨rfl, (c5_state_setters_idempotent recC).1 rfl⟩

/-- C6: each gesture kind holds at most one handler — a new registration
replaces the previous one — and a gesture fired with no registered handler
is silently dropped: no handler is invoked, no error is produced, and the
controller (in particular its state) is unchanged. -/
theorem c6_callback_registry (c : OverlayController) (cb cb' : Nat) :
    (native_overlay_set_start_recording_callback
        (native_overlay_set_start_recording_callback c cb) cb').startCb =
      some cb' ∧
    (native_overlay_set_stop_recording_callback
        (native_overlay_set_stop_recording_callback c cb) cb').stopCb =
      some cb' ∧
    (native_overlay_set_cancel_recording_callback
        (native_overlay_set_cancel_recording_callback c cb) cb').cancelCb =
      some cb' ∧
    (∀ k, (fireGesture c k).1 = c) ∧
    (handlerFor c .start = none → fireGesture c .start = (c, none)) ∧
    (handlerFor c .stop = none → fireGesture c .stop = (c, none)) ∧
    (handlerFor c .cancel = none → fireGesture c .cancel = (c, none)) := by
  refine ⟨rfl, rfl, rfl, fun k => rfl, ?_, ?_, ?_⟩ <;>
    · intro hnone
      simp [fireGesture, hnone]

/-- Witness for C6: firing `start` on the initial controller, which has no
registered handlers, invokes nothing and changes nothing. -/
theorem c6_callback_registry_witness :
    handlerFor initialOverlay .start = none ∧
    fireGesture initialOverlay .start = (initialOverlay, none) :=
  ⟨rfl, (c6_callback_registry initialOverlay 0 0).2.2.2.2.1 rfl⟩

/-- C7: `native_overlay_show` and `native_overlay_hide` change only the
visibility flag, so for every configuration the logical state after showing
or hiding equals the state before — visibility and logical state are
independent axes. -/
theorem c7_show_hide_preserve_state (c : OverlayController) :
    native_overlay_show c = { c with visible := true } ∧
    native_overlay_hide c = { c with visible := false } ∧
    (native_overlay_show c).state = c.state ∧
    (native_overlay_hide c).state = c.state :=
  ⟨rfl, rfl, rfl, rfl⟩

/-- C8: `summarize_text_sync` treats `max_sentences` as a soft target and
not a hard cap: whenever the model produces output the bridge returns it
verbatim in a fresh owned buffer, applying no truncation to the requested
sentence count, and there are conforming services under which the returned
output carries more sentences than requested and ones under which it
carries fewer — so a caller must not assume the exact count is met. -/
theorem c8_summarize_soft_target :
    (∀ (svc : ModelService) (h : BridgeHeap) (text : String) (n : Int)
        (out : String),
      fmAvailable svc = true → svc.summarizeModel text n = some out →
      summarize_text_sync svc h text n =
        ((allocBuffer h).1, some ((allocBuffer h).2, out))) ∧
    (∃ (svc : ModelService) (h : BridgeHeap) (text : String) (n : Int)
        (p : Nat) (out : String),
      0 < n ∧ (summarize_text_sync svc h text n).2 = some (p, out) ∧
        n.toNat < sentenceCount out) ∧
    (∃ (svc : ModelService) (h : BridgeHeap) (text : String) (n : Int)
        (p : Nat) (out : String),
      0 < n ∧ (summarize_text_sync svc h text n).2 = some (p, out) ∧
        sentenceCount out < n.toNat) := by
  refine ⟨?_, ?_, ?_⟩
  · intro svc h text n out ha hm
    simp [summarize_text_sync, ha, hm]
  · exact ⟨svcMany, ⟨[], 0⟩, "t", 3, 0, "A. B. C. D.",
      by decide, rfl, by decide⟩
  · exact ⟨svcFew, ⟨[], 0⟩, "t", 3, 0, "A.", by decide, rfl, by decide⟩

/-- Witness for C8: a concrete available service whose model output is
forwarded verbatim by `summarize_text_sync`. -/
theorem c8_summarize_soft_target_witness :
    fmAvailable svcMany = true ∧
    svcMany.summarizeModel "t" 3 = some "A. B. C. D." ∧
    summarize_text_sync svcMany ⟨[], 0⟩ "t" 3 =
      ((allocBuffer ⟨[], 0⟩).1, some ((allocBuffer ⟨[], 0⟩).2, "A. B. C. D.")) :=
  ⟨rfl, rfl, c8_summarize_soft_target.1 svcMany ⟨[], 0⟩ "t" 3 "A. B. C. D." rfl rfl⟩

/-- C9: `check_foundation_models_availability` has no side effects (the
service state it returns is the one it was given), two calls in immediate
succession with no intervening change return the same boolean, and when the
model service is absent or unsupported it returns `false` rather than
failing. -/
theorem c9_availability_probe (svc : ModelService) :
    (check_foundation_models_availability svc).1 = svc ∧
    (check_foundation_models_availability svc).2 =
      (check_foundation_models_availability
        (check_foundation_models_availability svc).1).2 ∧
    (svc.modelPresent = false ∨ svc.hardwareCapable = false ∨
        svc.osSufficient = false →
      (check_foundation_models_availability svc).2 = false) := by
  refine ⟨rfl, rfl, ?_⟩
  intro hcase
  rcases hcase with hm | hm | hm <;>
    simp [check_foundation_models_availability, fmAvailable, hm]

/-- Witness for C9: a service with the model absent, on which the probe
answers `false`. -/
theorem c9_availability_probe_witness :
    (svcAbsent.modelPresent = false ∨ svcAbsent.hardwareCapable = false ∨
      svcAbsent.osSufficient = false) ∧
    (check_foundation_models_availability svcAbsent).2 = false :=
  ⟨Or.inl rfl, (c9_availability_probe svcAbsent).2.2 (Or.inl rfl)⟩

/-- C10: in the declared interface of `summarize_text_sync` the
`max_sentences` parameter is a plain C `int`: the declaration accepts every
32-bit integer argument, including zero and negative values, and imposes no
positivity constraint. -/
theorem c10_summarize_int_param_unconstrained :
    summarize_text_sync_decl.params = [CType.constCharPtr, CType.cint] ∧
    declAccepts summarize_text_sync_decl [CVal.vptr (some 0), CVal.vint 0] ∧
    declAccepts summarize_text_sync_decl [CVal.vptr (some 0), CVal.vint (-1)] ∧
    ∀ v : Int, -(2 ^ 31) ≤ v → v < 2 ^ 31 →
      declAccepts summarize_text_sync_decl [CVal.vptr (some 0), CVal.vint v] := by
  refine ⟨rfl, ?_, ?_, ?_⟩
  · exact List.Forall₂.cons trivial
      (List.Forall₂.cons (by constructor <;> decide) List.Forall₂.nil)
  · exact List.Forall₂.cons trivial
      (List.Forall₂.cons (by constructor <;> decide) List.Forall₂.nil)
  · intro v h1 h2
    exact List.Forall₂.cons trivial
      (List.Forall₂.cons ⟨h1, h2⟩ List.Forall₂.nil)

/-- Witness for C10: the declaration accepts the negative count `-5`. -/
theorem c10_summarize_int_param_unconstrained_witness :
    (-(2 ^ 31) ≤ (-5 : Int) ∧ (-5 : Int) < 2 ^ 31) ∧
    declAccepts summarize_text_sync_decl [CVal.vptr (some 0), CVal.vint (-5)] :=
  ⟨by constructor <;> decide,
    c10_summarize_int_param_unconstrained.2.2.2 (-5) (by decide) (by decide)⟩

end Scout
